import Mathlib

/-!
Shallow embedding of the buzzer_app web client's session and round-state
engine (src/web_client/src/App.tsx together with lib/api.ts, lib/storage.ts
and the legacy client snapshot src/unnamed/part_000), with theorems checking
the natural-language specification against it.

Modelling conventions:
* React state cells become fields of an explicit ClientState record; each
  event handler becomes a pure function from state to state.
* Network and socket effects are represented by oracle parameters (the
  resolved or rejected outcome of the awaited call) and by result fields
  recording whether a request or socket send was issued.
* JavaScript number arithmetic on epoch seconds/milliseconds is modelled
  with Int; JSON numbers are restricted to integers, which covers the
  integral epoch-second exp claims the client consumes (a payload with a
  fractional or exponent-form number literal is outside the model and is
  rejected by the embedded parser).
* Transient presentation side effects (notices, screen flashes, sounds,
  log timestamps and random ids) are outside the modelled session and
  round state.
-/

namespace BuzzerApp

/-- JSON values as produced by JSON.parse, with numbers restricted to
integers (see the module header). Duplicate object keys are kept in order;
lookups take the last occurrence, matching JSON.parse. -/
inductive Json where
  | null
  | bool (b : Bool)
  | num (n : Int)
  | str (s : String)
  | arr (elems : List Json)
  | obj (fields : List (String × Json))

/-- Whitespace accepted between JSON tokens. -/
def isJsonWs (c : Char) : Bool :=
  c = ' ' || c = '\t' || c = '\n' || c = '\r'

/-- Drop leading JSON whitespace. -/
def skipWs : List Char → List Char
  | [] => []
  | c :: cs => if isJsonWs c then skipWs cs else c :: cs

/-- Value of a hexadecimal digit. -/
def hexVal (c : Char) : Option Nat :=
  if '0' ≤ c ∧ c ≤ '9' then some (c.toNat - 48)
  else if 'a' ≤ c ∧ c ≤ 'f' then some (c.toNat - 87)
  else if 'A' ≤ c ∧ c ≤ 'F' then some (c.toNat - 55)
  else none

/-- Parse the body of a JSON string literal, the opening quote already
consumed; returns the string and the remaining input. Escapes are the
standard JSON ones; a \u escape must denote a valid unicode scalar value. -/
def parseStringBody : Nat → List Char → List Char → Option (String × List Char)
  | 0, _, _ => none
  | _ + 1, _, [] => none
  | fuel + 1, acc, c :: cs =>
    if c = '"' then some (String.mk acc.reverse, cs)
    else if c = '\\' then
      match cs with
      | [] => none
      | e :: cs2 =>
        if e = '"' then parseStringBody fuel ('"' :: acc) cs2
        else if e = '\\' then parseStringBody fuel ('\\' :: acc) cs2
        else if e = '/' then parseStringBody fuel ('/' :: acc) cs2
        else if e = 'b' then parseStringBody fuel ('\x08' :: acc) cs2
        else if e = 'f' then parseStringBody fuel ('\x0c' :: acc) cs2
        else if e = 'n' then parseStringBody fuel ('\n' :: acc) cs2
        else if e = 'r' then parseStringBody fuel ('\r' :: acc) cs2
        else if e = 't' then parseStringBody fuel ('\t' :: acc) cs2
        else if e = 'u' then
          match cs2 with
          | h1 :: h2 :: h3 :: h4 :: cs3 =>
            match hexVal h1, hexVal h2, hexVal h3, hexVal h4 with
            | some a, some b, some c2, some d =>
              let code := ((a * 16 + b) * 16 + c2) * 16 + d
              if h : code < 0xd800 ∨ (0xdfff < code ∧ code < 0x110000) then
                parseStringBody fuel (Char.ofNatAux code (by omega) :: acc) cs3
              else none
            | _, _, _, _ => none
          | _ => none
        else none
    else if c.toNat < 32 then none
    else parseStringBody fuel (c :: acc) cs

/-- Decimal digits to a natural number. -/
def digitsToNat (ds : List Char) : Nat :=
  ds.foldl (fun n c => n * 10 + (c.toNat - 48)) 0

/-- Parse a JSON integer literal (optional minus, digits, no leading zero in
multi-digit numbers). A fraction or exponent part makes the parse fail:
fractional number literals are outside this model. -/
def parseJsonNumber (input : List Char) : Option (Int × List Char) :=
  let (neg, rest) :=
    match input with
    | '-' :: cs => (true, cs)
    | cs => (false, cs)
  match rest with
  | [] => none
  | c :: _ =>
    if c.isDigit then
      let ds := rest.takeWhile Char.isDigit
      let rest2 := rest.dropWhile Char.isDigit
      if ds.length > 1 ∧ ds.headD '0' = '0' then none
      else
        match rest2 with
        | '.' :: _ => none
        | 'e' :: _ => none
        | 'E' :: _ => none
        | _ =>
          let n : Int := (digitsToNat ds : Int)
          some (if neg then -n else n, rest2)
    else none

/-- Consume an expected literal character sequence. -/
def expectChars : List Char → List Char → Option (List Char)
  | [], rest => some rest
  | e :: es, c :: cs => if c = e then expectChars es cs else none
  | _ :: _, [] => none

mutual

/-- Parse one JSON value; fuel bounds the recursion depth. -/
def parseValue : Nat → List Char → Option (Json × List Char)
  | 0, _ => none
  | fuel + 1, input =>
    match skipWs input with
    | [] => none
    | c :: cs =>
      if c = '{' then parseObjMembers fuel cs [] true
      else if c = '[' then parseArrElems fuel cs [] true
      else if c = '"' then
        match parseStringBody (cs.length + 1) [] cs with
        | some (s, rest) => some (Json.str s, rest)
        | none => none
      else if c = 't' then (expectChars ['r', 'u', 'e'] cs).map (Json.bool true, ·)
      else if c = 'f' then (expectChars ['a', 'l', 's', 'e'] cs).map (Json.bool false, ·)
      else if c = 'n' then (expectChars ['u', 'l', 'l'] cs).map (Json.null, ·)
      else
        match parseJsonNumber (c :: cs) with
        | some (n, rest) => some (Json.num n, rest)
        | none => none

/-- Parse object members after the opening brace or after a comma; allowEnd
permits an immediate closing brace (true only for an empty object). -/
def parseObjMembers : Nat → List Char → List (String × Json) → Bool →
    Option (Json × List Char)
  | 0, _, _, _ => none
  | fuel + 1, input, acc, allowEnd =>
    match skipWs input with
    | '}' :: cs => if allowEnd then some (Json.obj acc.reverse, cs) else none
    | '"' :: cs =>
      match parseStringBody (cs.length + 1) [] cs with
      | none => none
      | some (key, rest) =>
        match skipWs rest with
        | ':' :: rest2 =>
          match parseValue fuel rest2 with
          | none => none
          | some (v, rest3) =>
            match skipWs rest3 with
            | ',' :: rest4 => parseObjMembers fuel rest4 ((key, v) :: acc) false
            | '}' :: rest4 => some (Json.obj ((key, v) :: acc).reverse, rest4)
            | _ => none
        | _ => none
    | _ => none

/-- Parse array elements after the opening bracket or after a comma. -/
def parseArrElems : Nat → List Char → List Json → Bool →
    Option (Json × List Char)
  | 0, _, _, _ => none
  | fuel + 1, input, acc, allowEnd =>
    match skipWs input with
    | ']' :: cs => if allowEnd then some (Json.arr acc.reverse, cs) else none
    | input2 =>
      match parseValue fuel input2 with
      | none => none
      | some (v, rest) =>
        match skipWs rest with
        | ',' :: rest2 => parseArrElems fuel rest2 (v :: acc) false
        | ']' :: rest2 => some (Json.arr (v :: acc).reverse, rest2)
        | _ => none

end

/-- JSON.parse on a character list: parse a complete value with only
whitespace allowed after it. -/
def parseJsonChars (cs : List Char) : Option Json :=
  match parseValue (4 * cs.length + 4) cs with
  | none => none
  | some (v, rest) => if (skipWs rest).isEmpty then some v else none

/-- JSON.parse on a string. -/
def parseJson (s : String) : Option Json :=
  parseJsonChars s.data

/-- Property access obj[key] on a parsed JSON value: the last binding of the
key in an object, none (undefined) on a non-object or a missing key. -/
def lookupField (j : Json) (key : String) : Option Json :=
  match j with
  | Json.obj fields => fields.foldl (fun acc f => if f.1 = key then some f.2 else acc) none
  | _ => none

/-- Value of a base64 alphabet character. -/
def b64Val (c : Char) : Option Nat :=
  if 'A' ≤ c ∧ c ≤ 'Z' then some (c.toNat - 65)
  else if 'a' ≤ c ∧ c ≤ 'z' then some (c.toNat - 97 + 26)
  else if '0' ≤ c ∧ c ≤ '9' then some (c.toNat - 48 + 52)
  else if c = '+' then some 62
  else if c = '/' then some 63
  else none

/-- Decode base64 input in groups of four characters; '=' padding is allowed
only at the very end. Invalid characters or a length that is not a multiple
of four fail, as atob throws there. -/
def atobChunks : List Char → Option (List Nat)
  | [] => some []
  | c1 :: c2 :: c3 :: c4 :: rest =>
    match b64Val c1, b64Val c2 with
    | some v1, some v2 =>
      if c3 = '=' then
        if c4 = '=' ∧ rest = [] then some [v1 * 4 + v2 / 16] else none
      else
        match b64Val c3 with
        | some v3 =>
          if c4 = '=' then
            if rest = [] then some [v1 * 4 + v2 / 16, v2 % 16 * 16 + v3 / 4] else none
          else
            match b64Val c4 with
            | some v4 =>
              match atobChunks rest with
              | some bs =>
                some ((v1 * 4 + v2 / 16) :: (v2 % 16 * 16 + v3 / 4) :: (v3 % 4 * 64 + v4) :: bs)
              | none => none
            | none => none
        | none => none
    | _, _ => none
  | _ => none

/-- Embedding of atob: decode base64 to the chars with the decoded byte
values (a JS binary string). -/
def atob (cs : List Char) : Option (List Char) :=
  (atobChunks cs).map (fun bs => bs.map Char.ofNat)

/-- Embedding of String.prototype.split with a one-character separator. -/
def splitOnChar (sep : Char) : List Char → List (List Char)
  | [] => [[]]
  | c :: cs =>
    if c = sep then [] :: splitOnChar sep cs
    else
      match splitOnChar sep cs with
      | [] => [[c]]
      | seg :: rest => (c :: seg) :: rest

/-- Threshold below which a token's remaining lifetime triggers a refresh
(App.tsx REFRESH_THRESHOLD_SECS = 60 * 60). -/
def REFRESH_THRESHOLD_SECS : Int := 60 * 60

/-- Interval of the background refresh check (App.tsx). -/
def REFRESH_CHECK_INTERVAL_SECS : Int := 15 * 60

/-- Embedding of getJwtExpSecs (App.tsx lines 40-53): take the second
dot-separated segment, base64url-normalize it (minus to plus, underscore to
slash, pad with '=' to a multiple of four), atob-decode it, JSON.parse the
result and return the exp field, with null for every failure along the way
and for a missing or zero exp. The payload's exp claim, when present, is
modelled as a JSON integer per the source's type annotation (exp?: number
holding epoch seconds). -/
def getJwtExpSecs (token : String) : Option Int :=
  match (splitOnChar '.' token.data).get? 1 with
  | none => none
  | some payload =>
    if payload.isEmpty then none
    else
      let normalized := payload.map fun c =>
        if c = '-' then '+' else if c = '_' then '/' else c
      let target := (normalized.length + 3) / 4 * 4
      let padded := normalized ++ List.replicate (target - normalized.length) '='
      match atob padded with
      | none => none
      | some decoded =>
        match parseJsonChars decoded with
        | none => none
        | some data =>
          match lookupField data "exp" with
          | some (Json.num n) => if n = 0 then none else some n
          | _ => none

/-! ## Data model of the live client (src/web_client/src/App.tsx) -/

/-- Participant roles (lib/api.ts). -/
inductive Role where
  | admin
  | player
deriving DecidableEq, Repr

/-- Roster entry (App.tsx ParticipantInfo). -/
structure ParticipantInfo where
  name : String
  role : Role
  locked_out : Bool
deriving DecidableEq, Repr

/-- Server-to-client messages (App.tsx ServerMessage). -/
inductive ServerMessage where
  | accepted (name : String)
  | rejected
  | timedOut (name : String)
  | roundStarted
  | roundContinued
  | participants (participants : List ParticipantInfo)
  | actionDenied (reason : String)
  | kicked
deriving DecidableEq, Repr

/-- Client-to-server messages sent on the socket. -/
inductive ClientMsg where
  | buzz
  | startRound
  | continueRound
  | kick (name : String)
deriving DecidableEq, Repr

/-- Which screen is shown (App.tsx view state). -/
inductive View where
  | landing
  | room
deriving DecidableEq, Repr

/-- Connection phase (App.tsx wsState). -/
inductive WsState where
  | disconnected
  | connecting
  | connected
deriving DecidableEq, Repr

/-- Round outcome (App.tsx result state). -/
inductive BuzzResult where
  | idle
  | won
  | lost
  | rejected
deriving DecidableEq, Repr

/-- The live client's session and round state: the React state cells and
refs of App.tsx, plus the persisted localStorage entries for the session's
room (lib/storage.ts) and the room query parameter of the address bar.
wsOpen models wsRef holding a socket whose readyState is OPEN; resetSession
closing and dropping the handle makes it false. -/
structure ClientState where
  roomId : String
  name : String
  myName : String
  role : Option Role
  participants : List ParticipantInfo
  token : Option String
  view : View
  error : Option String
  retryDeadline : Option Int
  wsState : WsState
  result : BuzzResult
  winnerName : String
  answerWindowInMs : String
  hasBuzzedThisRound : Bool
  answeringPlayer : Option String
  roundLocked : Bool
  wsOpen : Bool
  connectionFailures : Nat
  isAuthPending : Bool
  activeRoomId : Option String
  storedToken : Option String
  storedName : Option String
  storedRole : Option String
  urlSearch : String
deriving DecidableEq, Repr

/-- JS truthiness of a string | null value. -/
def strTruthy : Option String → Bool
  | none => false
  | some s => ¬ s.isEmpty

/-- Embedding of resetSession (App.tsx lines 265-282): clear role, roster,
token, connection phase, round state, close and drop any live socket,
return to the landing view and clear the query string when present. -/
def resetSession (s : ClientState) : ClientState :=
  { s with
    role := none
    participants := []
    token := none
    wsState := WsState.disconnected
    result := BuzzResult.idle
    hasBuzzedThisRound := false
    roundLocked := false
    wsOpen := false
    view := View.landing
    urlSearch := if s.urlSearch.isEmpty then s.urlSearch else "" }

/-- Embedding of clearActiveRoomId (lib/storage.ts lines 44-46). -/
def clearActiveRoomId (s : ClientState) : ClientState :=
  { s with activeRoomId := none }

/-- Embedding of persistAuth (lib/storage.ts lines 48-68) restricted to the
session's room entry: set the active room id and store each argument that
is present and non-empty. -/
def persistAuth (s : ClientState) (roomId : String) (token : Option String)
    (name : Option String) (role : Option String) : ClientState :=
  if roomId.isEmpty then s
  else
    let s := { s with activeRoomId := some roomId }
    let s := if strTruthy token then { s with storedToken := token } else s
    let s := if strTruthy name then { s with storedName := name } else s
    if strTruthy role then { s with storedRole := role } else s

/-- Embedding of the ws.onmessage switch of connectWs (App.tsx lines
366-444) on an already-decoded server message. The transient notice, flash
and sound side effects are outside the modelled state. -/
def stepMessage (s : ClientState) (m : ServerMessage) : ClientState :=
  match m with
  | ServerMessage.accepted nm =>
    let s := { s with roundLocked := true, winnerName := nm, answeringPlayer := some nm }
    if nm = s.myName then
      { s with result := BuzzResult.won, hasBuzzedThisRound := true }
    else
      { s with result := BuzzResult.lost }
  | ServerMessage.rejected => { s with result := BuzzResult.rejected }
  | ServerMessage.timedOut nm =>
    { s with
      result := BuzzResult.idle
      winnerName := ""
      roundLocked := false
      answeringPlayer := none
      participants := s.participants.map fun p =>
        if p.name = nm then { p with locked_out := true } else p }
  | ServerMessage.roundContinued =>
    let s := { s with result := BuzzResult.idle, winnerName := "", roundLocked := false }
    match s.answeringPlayer with
    | some ap =>
      { s with
        participants := s.participants.map fun p =>
          if p.name = ap then { p with locked_out := true } else p
        answeringPlayer := none }
    | none => s
  | ServerMessage.roundStarted =>
    { s with
      result := BuzzResult.idle
      winnerName := ""
      hasBuzzedThisRound := false
      roundLocked := false
      answeringPlayer := none
      participants := s.participants.map fun p => { p with locked_out := false } }
  | ServerMessage.participants ps => { s with participants := ps }
  | ServerMessage.actionDenied _ => s
  | ServerMessage.kicked => resetSession { s with result := BuzzResult.idle }

/-- Embedding of sendBuzz (App.tsx lines 472-483): the message sent on the
socket, if any. Note the function itself checks only the socket readyState,
roundLocked and hasBuzzedThisRound. -/
def sendBuzz (s : ClientState) : Option ClientMsg :=
  if ¬ s.wsOpen then none
  else if s.roundLocked then none
  else if s.hasBuzzedThisRound then none
  else some ClientMsg.buzz

/-- Embedding of iAmLockedOut (App.tsx line 591): whether the roster entry
matching the local display name is marked locked out. -/
def iAmLockedOut (s : ClientState) : Bool :=
  match s.participants.find? (fun p => p.name = s.myName) with
  | some p => p.locked_out
  | none => false

/-- Embedding of buzzDisabled (App.tsx lines 593-594), the disabled
attribute of the buzzer button. -/
def buzzDisabled (s : ClientState) : Bool :=
  s.wsState ≠ WsState.connected || s.hasBuzzedThisRound || s.roundLocked || iAmLockedOut s

/-- The buzzer button's onPointerDown handler (App.tsx lines 843-846): it
returns without buzzing when the button is disabled, else calls sendBuzz. -/
def buzzerButtonPress (s : ClientState) : Option ClientMsg :=
  if buzzDisabled s then none else sendBuzz s

/-- The spacebar keydown handler (App.tsx lines 612-625), for a space press
whose target is not a typing control: guards on view, connection phase,
hasBuzzedThisRound and iAmLockedOut, then calls sendBuzz. -/
def spaceKeyBuzz (s : ClientState) : Option ClientMsg :=
  if s.view ≠ View.room then none
  else if s.wsState ≠ WsState.connected then none
  else if s.hasBuzzedThisRound || iAmLockedOut s then none
  else sendBuzz s

/-! ## Token lifecycle and connection failure handling -/

/-- Helper for String.prototype.includes. -/
def includesAux (needle : List Char) : List Char → Bool
  | [] => needle.isEmpty
  | c :: cs => needle.isPrefixOf (c :: cs) || includesAux needle cs

/-- Embedding of String.prototype.includes. -/
def strIncludes (hay needle : String) : Bool :=
  includesAux needle.data hay.data

/-- Result of a refreshTokenIfNeeded run: the updated state, the value the
promise resolves with (string | null), and whether a refresh request was
issued. -/
structure RefreshStep where
  state : ClientState
  returned : Option String
  called : Bool
deriving DecidableEq, Repr

/-- Embedding of the refresh predicate of App.tsx line 243: refresh is due
when the expiry is falsy (undecodable) or within the threshold of now. -/
def shouldRefreshTok (tok : String) (now : Int) : Bool :=
  match getJwtExpSecs tok with
  | none => true
  | some e => decide (e - now < REFRESH_THRESHOLD_SECS)

/-- Embedding of refreshTokenIfNeeded (App.tsx lines 237-263). The outcome
parameter is the resolved value or rejection message of the awaited refresh
mutation (roomsApi.refreshToken). On a falsy token or room id the current
token is returned without a call; a token not judged due by shouldRefreshTok
is returned without a call; otherwise the refresh is attempted: on success
the token is stored when it changed and returned, on failure null is
returned and, when the rejection message includes room_not_found, the
cached active room id is cleared. -/
def refreshTokenIfNeeded (s : ClientState) (currentToken : Option String)
    (roomId : String) (now : Int) (outcome : Except String String) : RefreshStep :=
  if ¬ strTruthy currentToken || roomId.isEmpty then ⟨s, currentToken, false⟩
  else
    match currentToken with
    | none => ⟨s, none, false⟩
    | some tok =>
      if shouldRefreshTok tok now = false then ⟨s, some tok, false⟩
      else
        match outcome with
        | Except.ok nextToken =>
          if nextToken ≠ tok then
            ⟨persistAuth { s with token := some nextToken } roomId (some nextToken) none none,
              some nextToken, true⟩
          else ⟨s, some nextToken, true⟩
        | Except.error msg =>
          let s := if strIncludes msg "room_not_found" then clearActiveRoomId s else s
          ⟨s, none, true⟩

/-- Embedding of roomsApi.refreshToken's result mapping (api.ts lines
72-81): an empty new_token in a successful response falls back to the token
that was sent; a failed request rejects with the ApiError message. -/
def roomsApiRefreshToken (sentToken : String) (resp : Except String String) :
    Except String String :=
  match resp with
  | Except.ok newToken => Except.ok (if newToken.isEmpty then sentToken else newToken)
  | Except.error msg => Except.error msg

/-- Embedding of ws.onopen (App.tsx lines 358-365): reset the failure
counter, mark the connection live and start the round state clean. -/
def wsOnOpen (s : ClientState) : ClientState :=
  { s with
    connectionFailures := 0
    wsState := WsState.connected
    result := BuzzResult.idle
    winnerName := ""
    hasBuzzedThisRound := false
    roundLocked := false
    wsOpen := true }

/-- Result of a ws.onclose run: the updated state and whether the proactive
token-refresh call was made. -/
structure CloseStep where
  state : ClientState
  refreshCalled : Bool
deriving DecidableEq, Repr

/-- Embedding of ws.onclose (App.tsx lines 445-466). The failure counter
increments; once it exceeds 3 with the room view active and a token and
room id present, one roomsApi.refreshToken call is made (outcome is its
resolution or rejection message): a rejection naming room_not_found or
user_not_in_room clears the cached room pointer on room_not_found and
resets the session; every other path after the call also resets the
session. -/
def wsOnClose (s : ClientState) (outcome : Except String String) : CloseStep :=
  let s := { s with
    wsState := WsState.disconnected
    wsOpen := false
    connectionFailures := s.connectionFailures + 1 }
  if 3 < s.connectionFailures ∧ s.view = View.room ∧ strTruthy s.token ∧
      ¬ s.roomId.isEmpty then
    match outcome with
    | Except.ok _ => ⟨resetSession s, true⟩
    | Except.error msg =>
      if strIncludes msg "room_not_found" || strIncludes msg "user_not_in_room" then
        let s := if strIncludes msg "room_not_found" then clearActiveRoomId s else s
        ⟨resetSession s, true⟩
      else ⟨resetSession s, true⟩
  else ⟨s, false⟩

/-! ## REST attempts: createRoom and joinRoom with the 429 cooldown -/

/-- Failure data of a non-2xx REST response (api.ts ApiError). retryAfter
models the parsed Retry-After header; a missing header or a parse to NaN is
none (both are falsy where the client checks err.retryAfter). -/
structure ApiFailure where
  message : String
  status : Nat
  retryAfter : Option Int
deriving DecidableEq, Repr

/-- Embedding of JS parseInt(str, 10): skip leading whitespace, optional
sign, then the longest digit run; none when no digit follows (NaN). -/
def parseIntBase10 (str : String) : Option Int :=
  let cs := str.data.dropWhile fun c => c = ' ' || c = '\t' || c = '\n' || c = '\r'
  let (neg, cs2) :=
    match cs with
    | '-' :: rest => (true, rest)
    | '+' :: rest => (false, rest)
    | rest => (false, rest)
  let ds := cs2.takeWhile Char.isDigit
  if ds.isEmpty then none
  else
    let n : Int := (digitsToNat ds : Int)
    some (if neg then -n else n)

/-- Embedding of the error path of apiRequest (api.ts lines 30-44): the
ApiError thrown for a non-2xx response with the given status, body text and
Retry-After header. -/
def apiRequestFailure (status : Nat) (bodyText : String) (retryHeader : Option String) :
    ApiFailure :=
  let retryAfter :=
    if status = 429 then
      match retryHeader with
      | some h => if h.isEmpty then none else parseIntBase10 h
      | none => none
    else none
  { message := if bodyText.isEmpty then "request_failed_" ++ toString status else bodyText
    status := status
    retryAfter := retryAfter }

/-- Embedding of the truthiness test retryDeadline && Date.now() < retryDeadline
guarding createRoom and joinRoom. -/
def retryDeadlineActive (s : ClientState) (now : Int) : Bool :=
  match s.retryDeadline with
  | some d => decide (d ≠ 0 ∧ now < d)
  | none => false

/-- Embedding of the shared catch block of createRoom and joinRoom (App.tsx
lines 308-315 and 334-341): a 429 ApiError with a truthy retryAfter arms
the cooldown deadline; any other error only sets the error text. -/
def authFailure (s : ClientState) (now : Int) (err : ApiFailure) : ClientState :=
  match err.retryAfter with
  | some n =>
    if err.status = 429 ∧ n ≠ 0 then
      { s with
        retryDeadline := some (now + n * 1000)
        error := some ("Too many requests. Wait for " ++ toString n ++ "s") }
    else { s with error := some err.message }
  | none => { s with error := some err.message }

/-- Response of POST /rooms (api.ts CreateRoomResponse). -/
structure CreateRoomResponse where
  room_id : String
  token : String
  answer_window_in_ms : Int
deriving DecidableEq, Repr

/-- Response of POST /rooms/:id/join (api.ts JoinRoomResponse). -/
structure JoinRoomResponse where
  token : Option String
  answer_window_in_ms : Int
  role : Role
deriving DecidableEq, Repr

/-- Result of a createRoom or joinRoom invocation: the updated state and
whether a network request was issued. -/
structure AttemptStep where
  state : ClientState
  requested : Bool
deriving DecidableEq, Repr

/-- Role serialized for storage. -/
def roleString : Role → String
  | Role.admin => "admin"
  | Role.player => "player"

/-- Embedding of createRoom (App.tsx lines 290-316): refuse locally while a
mutation is pending or the 429 cooldown deadline is armed and unexpired;
otherwise issue the request, with the outcome applied to the state. -/
def createRoom (s : ClientState) (now : Int)
    (outcome : Except ApiFailure CreateRoomResponse) : AttemptStep :=
  if s.isAuthPending then ⟨s, false⟩
  else if retryDeadlineActive s now then ⟨s, false⟩
  else
    let s := { s with error := none }
    match outcome with
    | Except.ok data =>
      let s := { s with
        roomId := data.room_id
        myName := s.name
        role := some Role.admin
        token := some data.token
        answerWindowInMs := toString data.answer_window_in_ms
        view := View.room }
      ⟨persistAuth s data.room_id (some data.token) (some s.name) (some "admin"), true⟩
    | Except.error err => ⟨authFailure s now err, true⟩

/-- Embedding of joinRoom (App.tsx lines 318-342), same guard structure as
createRoom. -/
def joinRoom (s : ClientState) (now : Int)
    (outcome : Except ApiFailure JoinRoomResponse) : AttemptStep :=
  if s.isAuthPending then ⟨s, false⟩
  else if retryDeadlineActive s now then ⟨s, false⟩
  else
    let s := { s with error := none }
    match outcome with
    | Except.ok data =>
      let s := { s with
        role := some data.role
        token := data.token
        answerWindowInMs := toString data.answer_window_in_ms
        view := View.room }
      let s := if ¬ s.name.trim.isEmpty then { s with myName := s.name.trim } else s
      ⟨persistAuth s s.roomId data.token (some s.name) (some (roleString data.role)), true⟩
    | Except.error err => ⟨authFailure s now err, true⟩

/-! ## Raw message dispatch (ws.onmessage) -/

/-- Property access returning a string field, "" when absent: known-tag
messages are decoded per the ServerMessage type annotation. -/
def getStrField (j : Json) (key : String) : String :=
  match lookupField j key with
  | some (Json.str s) => s
  | _ => ""

/-- Decode one roster entry per the ParticipantInfo type annotation, with
locked_out truthiness defaulting to false. -/
def decodeParticipant (j : Json) : ParticipantInfo :=
  { name := getStrField j "name"
    role := if getStrField j "role" = "admin" then Role.admin else Role.player
    locked_out :=
      match lookupField j "locked_out" with
      | some (Json.bool b) => b
      | _ => false }

/-- Decode the participants array of a participants message. -/
def decodeParticipantList (j : Json) : List ParticipantInfo :=
  match lookupField j "participants" with
  | some (Json.arr xs) => xs.map decodeParticipant
  | _ => []

/-- The eight server-to-client tags the onmessage switch recognizes. -/
def serverMessageTags : List String :=
  ["accepted", "rejected", "timed_out", "round_started", "round_continued",
   "participants", "action_denied", "kicked"]

/-- The type tag of a parsed message, as read by the switch. -/
def typeTagOf (j : Json) : Option String :=
  match lookupField j "type" with
  | some (Json.str t) => some t
  | _ => none

/-- The switch on msg.type of ws.onmessage, with a no-op default; a type
tag that is not a string never equals a case label, so it falls to the
default. -/
def dispatchTag (s : ClientState) (j : Json) : ClientState :=
  match typeTagOf j with
  | some t =>
    if t = "accepted" then stepMessage s (ServerMessage.accepted (getStrField j "name"))
    else if t = "rejected" then stepMessage s ServerMessage.rejected
    else if t = "timed_out" then stepMessage s (ServerMessage.timedOut (getStrField j "name"))
    else if t = "round_started" then stepMessage s ServerMessage.roundStarted
    else if t = "round_continued" then stepMessage s ServerMessage.roundContinued
    else if t = "participants" then
      stepMessage s (ServerMessage.participants (decodeParticipantList j))
    else if t = "action_denied" then
      stepMessage s (ServerMessage.actionDenied (getStrField j "reason"))
    else if t = "kicked" then stepMessage s ServerMessage.kicked
    else s
  | none => s

/-- Embedding of ws.onmessage (App.tsx lines 366-444) on the raw payload:
JSON.parse inside a try whose catch ignores the message, then the switch on
msg.type (dispatchTag). A parsed null is also ignored: reading .type of
null throws and the catch swallows it. -/
def onMessage (s : ClientState) (raw : String) : ClientState :=
  match parseJson raw with
  | none => s
  | some Json.null => s
  | some j => dispatchTag s j

/-! ## Legacy client snapshot (src/unnamed/part_000)

The repository also contains an earlier near-duplicate snapshot of the
client. Its message handler, unlike the live one, reconciles the roster
against the local identity. It is embedded separately here. -/

namespace Legacy

/-- Log tone (part_000 LogEntry). -/
inductive Tone where
  | ok
  | warn
  | bad
deriving DecidableEq, Repr

/-- Roster entry of the legacy snapshot (part_000 ParticipantInfo): no
locked_out field. -/
structure ParticipantInfo where
  name : String
  role : Role
deriving DecidableEq, Repr

/-- Server messages of the legacy snapshot (part_000 ServerMessage): no
round_continued variant, and accepted carries a deadline. -/
inductive ServerMessage where
  | accepted (name : String) (deadline_ms : Int)
  | rejected
  | timedOut (name : String)
  | roundStarted
  | participants (participants : List ParticipantInfo)
  | actionDenied (reason : String)
  | kicked
deriving DecidableEq, Repr

/-- Request status of the legacy snapshot. -/
inductive Status where
  | idle
  | loading
  | ready
deriving DecidableEq, Repr

/-- State of the legacy snapshot's App component. Log entries are modelled
as text and tone; their random id and wall-clock timestamp are
nondeterministic presentation data outside the model. -/
structure ClientState where
  roomId : String
  name : String
  myName : String
  role : Option Role
  participants : List ParticipantInfo
  token : Option String
  status : Status
  view : View
  error : Option String
  wsState : WsState
  logs : List (String × Tone)
  adminTarget : String
  kickTarget : String
  result : BuzzResult
  roomMode : String
  answerWindowMs : String
  wsOpen : Bool
deriving DecidableEq, Repr

/-- Embedding of appendLog (part_000 lines 112-118): prepend the entry,
keeping at most 200 prior entries. -/
def appendLog (s : ClientState) (text : String) (tone : Tone) : ClientState :=
  { s with logs := (text, tone) :: s.logs.take 200 }

/-- Embedding of the legacy resetSession (part_000 lines 159-172). -/
def resetSession (s : ClientState) : ClientState :=
  { s with
    role := none
    participants := []
    token := none
    status := Status.idle
    wsState := WsState.disconnected
    logs := []
    result := BuzzResult.idle
    wsOpen := false
    view := View.landing }

/-- Embedding of the legacy ws.onmessage switch (part_000 lines 282-332) on
a decoded message. The participants case (lines 302-317) replaces the
roster, then looks up the local identity (myName, falling back to the join
input name): when found the local role is set from the broadcast; when
absent while the room view is active the handler logs and resets the
session, skipping the trailing update log. -/
def stepMessage (s : ClientState) (m : ServerMessage) : ClientState :=
  match m with
  | ServerMessage.accepted nm _ =>
    let s := appendLog s (nm ++ " buzzed first.") Tone.ok
    { s with result := if nm = s.myName then BuzzResult.won else BuzzResult.lost }
  | ServerMessage.rejected =>
    let s := appendLog s "Buzz rejected." Tone.warn
    { s with result := BuzzResult.rejected }
  | ServerMessage.timedOut nm =>
    let s := appendLog s (nm ++ " timed out.") Tone.bad
    { s with result := BuzzResult.idle }
  | ServerMessage.roundStarted =>
    let s := appendLog s "Round started." Tone.ok
    { s with result := BuzzResult.idle }
  | ServerMessage.participants ps =>
    let s := { s with participants := ps }
    let identity := if s.myName.isEmpty then s.name else s.myName
    if identity.isEmpty then
      appendLog s "Participants updated." Tone.ok
    else
      match ps.find? (fun participant => participant.name = identity) with
      | some me =>
        appendLog { s with role := some me.role } "Participants updated." Tone.ok
      | none =>
        if s.view = View.room then
          resetSession (appendLog s "You are no longer in the room." Tone.bad)
        else
          appendLog s "Participants updated." Tone.ok
  | ServerMessage.actionDenied reason =>
    appendLog s ("Action denied: " ++ reason) Tone.warn
  | ServerMessage.kicked =>
    let s := appendLog s "You were removed from the room." Tone.bad
    resetSession { s with result := BuzzResult.idle }

/-- The local identity the legacy participants case looks up: myName with
the name input as fallback (myName || name). -/
def identityOf (s : ClientState) : String :=
  if s.myName.isEmpty then s.name else s.myName

end Legacy

/-! ## Concrete states for witnesses and counterexamples -/

/-- A concrete live in-room session state. -/
def demoState : ClientState :=
  { roomId := "r1"
    name := "alice"
    myName := "alice"
    role := some Role.admin
    participants := [⟨"alice", Role.admin, false⟩, ⟨"bob", Role.player, false⟩]
    token := some "h.eyJleHAiOjcyMDB9.sig"
    view := View.room
    error := none
    retryDeadline := none
    wsState := WsState.connected
    result := BuzzResult.idle
    winnerName := ""
    answerWindowInMs := "5000"
    hasBuzzedThisRound := false
    answeringPlayer := none
    roundLocked := false
    wsOpen := true
    connectionFailures := 0
    isAuthPending := false
    activeRoomId := some "r1"
    storedToken := some "h.eyJleHAiOjcyMDB9.sig"
    storedName := some "alice"
    storedRole := some "admin"
    urlSearch := "?room=r1" }

/-- A concrete pre-join landing state. -/
def landingState : ClientState :=
  { demoState with
    view := View.landing
    role := none
    token := none
    participants := []
    wsState := WsState.disconnected
    wsOpen := false
    activeRoomId := none
    storedToken := none
    urlSearch := "" }

/-- demoState with the local participant marked locked out in the roster. -/
def lockedOutState : ClientState :=
  { demoState with
    participants := [⟨"alice", Role.admin, true⟩, ⟨"bob", Role.player, false⟩] }

/-- A concrete legacy in-room session state. -/
def legacyDemoState : Legacy.ClientState :=
  { roomId := "r1"
    name := "alice"
    myName := "alice"
    role := some Role.admin
    participants := [⟨"alice", Role.admin⟩, ⟨"bob", Role.player⟩]
    token := some "tok"
    status := Legacy.Status.ready
    view := View.room
    error := none
    wsState := WsState.connected
    logs := [("WebSocket connected.", Legacy.Tone.ok)]
    adminTarget := ""
    kickTarget := ""
    result := BuzzResult.idle
    roomMode := "create"
    answerWindowMs := "5000"
    wsOpen := true }

/-! ## C4: resetSession idempotence -/

/-- C4: calling resetSession twice in a row yields the same terminal state
as calling it once; after the first call the role, roster, token,
connection phase and round state are cleared, any live socket handle is
closed and dropped, the view is back at the pre-join landing screen and
the room query parameter is cleared; a second call leaves that state
unchanged. -/
theorem c4_reset_idempotent (s : ClientState) :
    resetSession (resetSession s) = resetSession s ∧
    (resetSession s).role = none ∧
    (resetSession s).participants = [] ∧
    (resetSession s).token = none ∧
    (resetSession s).wsState = WsState.disconnected ∧
    (resetSession s).result = BuzzResult.idle ∧
    (resetSession s).hasBuzzedThisRound = false ∧
    (resetSession s).roundLocked = false ∧
    (resetSession s).wsOpen = false ∧
    (resetSession s).view = View.landing ∧
    (resetSession s).urlSearch = "" := by
  have key : ∀ t : ClientState, resetSession t =
      { t with
        role := none
        participants := []
        token := none
        wsState := WsState.disconnected
        result := BuzzResult.idle
        hasBuzzedThisRound := false
        roundLocked := false
        wsOpen := false
        view := View.landing
        urlSearch := "" } := by
    intro t
    unfold resetSession
    by_cases h : t.urlSearch.isEmpty
    · simp [(String.isEmpty_iff t.urlSearch).mp h]
    · simp [h]
  simp only [key]
  simp

/-! ## C2: the sendBuzz transmission guard -/

/-- C2 is stated over the sendBuzz function alone; it fails there: sendBuzz
itself never consults the roster lockout flag. In this concrete state the
socket is open, the round is not locked and the local buzzed flag is clear,
but the local participant is marked locked out in the roster; sendBuzz
still transmits the buzz, where the claim requires nothing to be sent. -/
theorem c2_counterexample :
    lockedOutState.wsOpen = true ∧
    lockedOutState.roundLocked = false ∧
    lockedOutState.hasBuzzedThisRound = false ∧
    iAmLockedOut lockedOutState = true ∧
    sendBuzz lockedOutState = some ClientMsg.buzz := by
  decide

/-- C2 (amended): sendBuzz itself transmits the buzz exactly when the
socket is open, the round phase is not locked and the local buzzed flag is
false; the locked-out conjunct is enforced by its two invokers rather than
by sendBuzz: the buzzer button is disabled by buzzDisabled and its pointer
handler refuses when disabled, and the spacebar handler refuses unless the
view is the room, the connection phase is connected and the local
participant is neither buzzed nor locked out, so a user-interface buzz
attempt is transmitted exactly when all the claim's conjuncts hold. -/
theorem c2_buzz_guard (s : ClientState) :
    (sendBuzz s = some ClientMsg.buzz ↔
      s.wsOpen = true ∧ s.roundLocked = false ∧ s.hasBuzzedThisRound = false) ∧
    (buzzerButtonPress s = some ClientMsg.buzz ↔
      s.wsState = WsState.connected ∧ s.roundLocked = false ∧
      s.hasBuzzedThisRound = false ∧ iAmLockedOut s = false ∧ s.wsOpen = true) ∧
    (spaceKeyBuzz s = some ClientMsg.buzz ↔
      s.view = View.room ∧ s.wsState = WsState.connected ∧ s.roundLocked = false ∧
      s.hasBuzzedThisRound = false ∧ iAmLockedOut s = false ∧ s.wsOpen = true) := by
  by_cases h1 : s.wsOpen <;> by_cases h2 : s.roundLocked <;>
    by_cases h3 : s.hasBuzzedThisRound <;>
    by_cases h4 : s.wsState = WsState.connected <;>
    by_cases h5 : iAmLockedOut s <;>
    by_cases h6 : s.view = View.room <;>
    simp [sendBuzz, buzzerButtonPress, spaceKeyBuzz, buzzDisabled,
      h1, h2, h3, h4, h5, h6]

/-! ## C1: roster reconciliation on a participants broadcast -/

/-- C1 is stated over the live client's participants handler; it fails
there. In this concrete in-room state the local name alice is absent from
the broadcast roster, yet the handler only replaces the roster: the view
stays room and the role stays admin, where the claim requires the session
to reset to the pre-join state as on kicked. -/
theorem c1_counterexample :
    demoState.view = View.room ∧
    demoState.myName = "alice" ∧
    (([⟨"bob", Role.player, false⟩] : List ParticipantInfo).find?
      (fun p => p.name = demoState.myName)) = none ∧
    stepMessage demoState (ServerMessage.participants [⟨"bob", Role.player, false⟩]) =
      { demoState with participants := [⟨"bob", Role.player, false⟩] } ∧
    (stepMessage demoState
      (ServerMessage.participants [⟨"bob", Role.player, false⟩])).view = View.room ∧
    (stepMessage demoState
      (ServerMessage.participants [⟨"bob", Role.player, false⟩])).role =
        some Role.admin := by
  decide

/-- The legacy participants handler written in branch form, with the local
identity lookup made explicit; equal to the handler by unfolding. -/
lemma legacy_step_participants_eq
    (s : Legacy.ClientState) (ps : List Legacy.ParticipantInfo) :
    Legacy.stepMessage s (Legacy.ServerMessage.participants ps) =
      (if (Legacy.identityOf s).isEmpty then
        Legacy.appendLog { s with participants := ps } "Participants updated." Legacy.Tone.ok
      else
        match ps.find? (fun participant => participant.name = Legacy.identityOf s) with
        | some me =>
          Legacy.appendLog { s with participants := ps, role := some me.role }
            "Participants updated." Legacy.Tone.ok
        | none =>
          if s.view = View.room then
            Legacy.resetSession (Legacy.appendLog { s with participants := ps }
              "You are no longer in the room." Legacy.Tone.bad)
          else
            Legacy.appendLog { s with participants := ps }
              "Participants updated." Legacy.Tone.ok) := rfl

/-- C1 (amended): the described reconciliation is implemented by the legacy
snapshot's participants handler (src/unnamed/part_000 lines 302-317), not
by the live client's: in the legacy handler, with a non-empty local
identity, a roster omitting it while the room view is active yields exactly
the state of receiving kicked, and a roster containing it updates the local
role to the broadcast role; the live handler (App.tsx lines 428-431) only
replaces the roster wholesale and changes nothing else. -/
theorem c1_participants_reconciliation
    (s : Legacy.ClientState) (ps : List Legacy.ParticipantInfo)
    (s2 : ClientState) (ps2 : List ParticipantInfo) :
    ((Legacy.identityOf s).isEmpty = false →
      ps.find? (fun participant => participant.name = Legacy.identityOf s) = none →
      s.view = View.room →
      Legacy.stepMessage s (Legacy.ServerMessage.participants ps) =
        Legacy.stepMessage s Legacy.ServerMessage.kicked) ∧
    (∀ me, (Legacy.identityOf s).isEmpty = false →
      ps.find? (fun participant => participant.name = Legacy.identityOf s) = some me →
      (Legacy.stepMessage s (Legacy.ServerMessage.participants ps)).role = some me.role) ∧
    (stepMessage s2 (ServerMessage.participants ps2) = { s2 with participants := ps2 }) := by
  refine ⟨?_, ?_, rfl⟩
  · intro hid habs hview
    rw [legacy_step_participants_eq]
    simp only [hid, habs, hview]
    rfl
  · intro me hid hfound
    rw [legacy_step_participants_eq]
    simp only [hid, hfound]
    rfl

/-- Witness for c1_participants_reconciliation at the concrete legacy state
legacyDemoState with a roster broadcast omitting alice, and at demoState. -/
theorem c1_participants_reconciliation_witness :
    Legacy.stepMessage legacyDemoState
        (Legacy.ServerMessage.participants [⟨"bob", Role.player⟩]) =
      Legacy.stepMessage legacyDemoState Legacy.ServerMessage.kicked ∧
    (Legacy.stepMessage legacyDemoState
        (Legacy.ServerMessage.participants
          [⟨"alice", Role.player⟩, ⟨"bob", Role.admin⟩])).role = some Role.player := by
  refine ⟨?_, ?_⟩
  · exact (c1_participants_reconciliation legacyDemoState [⟨"bob", Role.player⟩]
      demoState []).1 (by decide) (by decide) (by decide)
  · exact (c1_participants_reconciliation legacyDemoState
      [⟨"alice", Role.player⟩, ⟨"bob", Role.admin⟩] demoState []).2.1
      ⟨"alice", Role.player⟩ (by decide) (by decide)

/-! ## C3: no buzz transmission between accepted and the round reopening -/

/-- Events whose handler clears roundLocked, reopening local buzzing:
round_started, round_continued and also timed_out (App.tsx line 391). -/
def reopensBuzzing : ServerMessage → Bool
  | ServerMessage.roundStarted => true
  | ServerMessage.roundContinued => true
  | ServerMessage.timedOut _ => true
  | _ => false

/-- Applying any non-reopening event preserves the lockout invariant: the
round stays locked or the socket is no longer open. -/
lemma stepMessage_locked_invariant (s : ClientState) (m : ServerMessage)
    (hm : reopensBuzzing m = false)
    (h : s.roundLocked = true ∨ s.wsOpen = false) :
    (stepMessage s m).roundLocked = true ∨ (stepMessage s m).wsOpen = false := by
  cases m with
  | accepted nm =>
    left
    show (if nm = s.myName then _ else _ : ClientState).roundLocked = true
    split <;> rfl
  | rejected => exact h
  | timedOut nm => exact absurd hm (by simp [reopensBuzzing])
  | roundStarted => exact absurd hm (by simp [reopensBuzzing])
  | roundContinued => exact absurd hm (by simp [reopensBuzzing])
  | participants ps => exact h
  | actionDenied reason => exact h
  | kicked =>
    right
    show (resetSession _).wsOpen = false
    have : ∀ t : ClientState, (resetSession t).wsOpen = false := fun t => rfl
    exact this _

/-- The lockout invariant is preserved by any fold of non-reopening
events. -/
lemma foldl_locked_invariant (evs : List ServerMessage)
    (h : ∀ e ∈ evs, reopensBuzzing e = false) (t : ClientState)
    (ht : t.roundLocked = true ∨ t.wsOpen = false) :
    (evs.foldl stepMessage t).roundLocked = true ∨
      (evs.foldl stepMessage t).wsOpen = false := by
  induction evs generalizing t with
  | nil => exact ht
  | cons e rest ih =>
    exact ih (fun x hx => h x (List.mem_cons_of_mem _ hx)) _
      (stepMessage_locked_invariant t e (h e (List.mem_cons_self _ _)) ht)

/-- C3 is stated as: after accepted, no buzz until round_started or
round_continued. It fails because a timed_out event also reopens buzzing:
starting from the concrete in-room state, after accepted for bob followed
by timed_out for bob — neither being round_started or round_continued — a
sendBuzz attempt transmits the buzz. -/
theorem c3_counterexample :
    (∀ e ∈ [ServerMessage.accepted "bob", ServerMessage.timedOut "bob"],
      e ≠ ServerMessage.roundStarted ∧ e ≠ ServerMessage.roundContinued) ∧
    sendBuzz (List.foldl stepMessage demoState
      [ServerMessage.accepted "bob", ServerMessage.timedOut "bob"]) =
        some ClientMsg.buzz := by
  decide

/-- C3 (amended): after an accepted event is applied, no sendBuzz attempt
transmits a buzz until an event whose handler reopens buzzing is applied —
round_started, round_continued, or timed_out (whose handler also clears the
locked phase); for every fold of events none of which reopens buzzing, the
buzz stays untransmitted. -/
theorem c3_accepted_locks_until_reopen (s : ClientState) (nm : String)
    (evs : List ServerMessage) (h : ∀ e ∈ evs, reopensBuzzing e = false) :
    sendBuzz (evs.foldl stepMessage (stepMessage s (ServerMessage.accepted nm))) = none := by
  have h0 : (stepMessage s (ServerMessage.accepted nm)).roundLocked = true := by
    show (if nm = s.myName then _ else _ : ClientState).roundLocked = true
    split <;> rfl
  have := foldl_locked_invariant evs h (stepMessage s (ServerMessage.accepted nm)) (Or.inl h0)
  rcases this with hl | ho
  · unfold sendBuzz
    rw [hl]
    split <;> simp
  · unfold sendBuzz
    rw [ho]
    simp

/-- Witness for c3_accepted_locks_until_reopen at the concrete in-room
state, with accepted for bob followed by a rejected and a participants
event. -/
theorem c3_accepted_locks_until_reopen_witness :
    sendBuzz (List.foldl stepMessage
      (stepMessage demoState (ServerMessage.accepted "bob"))
      [ServerMessage.rejected,
       ServerMessage.participants [⟨"alice", Role.admin, false⟩]]) = none :=
  c3_accepted_locks_until_reopen demoState "bob"
    [ServerMessage.rejected, ServerMessage.participants [⟨"alice", Role.admin, false⟩]]
    (by decide)

/-! ## C5: the close-failure threshold and the single proactive refresh -/

/-- The state after a sequence of socket closures, each close handler run
with the corresponding refresh-call outcome. -/
def afterCloses (s : ClientState) (outcomes : List (Except String String)) : ClientState :=
  outcomes.foldl (fun t o => (wsOnClose t o).state) s

/-- A closure with the incremented failure counter still at or below the
threshold makes no refresh call. -/
lemma wsOnClose_noCall_low (t : ClientState) (o : Except String String)
    (hc : t.connectionFailures + 1 ≤ 3) :
    wsOnClose t o = ⟨{ t with
      wsState := WsState.disconnected
      wsOpen := false
      connectionFailures := t.connectionFailures + 1 }, false⟩ := by
  simp only [wsOnClose]
  rw [if_neg]
  rintro ⟨h1, -⟩
  omega

/-- A closure while the room view is not active makes no refresh call. -/
lemma wsOnClose_noCall_view (t : ClientState) (o : Except String String)
    (hv : t.view ≠ View.room) :
    wsOnClose t o = ⟨{ t with
      wsState := WsState.disconnected
      wsOpen := false
      connectionFailures := t.connectionFailures + 1 }, false⟩ := by
  simp only [wsOnClose]
  rw [if_neg]
  rintro ⟨-, h2, -⟩
  exact hv h2

/-- A closure past the threshold with the room view active and a truthy
token and room id makes the refresh call; when that call rejects, the
session is reset, with the cached room pointer cleared exactly when the
rejection message includes room_not_found. -/
lemma wsOnClose_call_error (t : ClientState) (msg : String)
    (h1 : 3 < t.connectionFailures + 1) (h2 : t.view = View.room)
    (h3 : strTruthy t.token = true) (h4 : t.roomId.isEmpty = false) :
    wsOnClose t (Except.error msg) =
      ⟨resetSession (if strIncludes msg "room_not_found" = true then
          clearActiveRoomId { t with
            wsState := WsState.disconnected
            wsOpen := false
            connectionFailures := t.connectionFailures + 1 }
        else { t with
            wsState := WsState.disconnected
            wsOpen := false
            connectionFailures := t.connectionFailures + 1 }), true⟩ := by
  simp only [wsOnClose]
  rw [if_pos ⟨h1, h2, h3, by simp [h4]⟩]
  by_cases hrnf : strIncludes msg "room_not_found" = true
  · simp [hrnf]
  · by_cases hunr : strIncludes msg "user_not_in_room" = true <;> simp [hrnf, hunr]

/-- C5: starting from an in-room state with a truthy token and room id and
a zeroed failure counter, the first three closures make no refresh call;
the fourth closure (counter now 4, exceeding the threshold 3) makes exactly
one refresh call, and when that call fails — with any message — the session
resets to the landing view, with the cached room pointer cleared when the
failure names room_not_found; a fifth closure after the reset makes no
further call. -/
theorem c5_close_threshold_refresh (s : ClientState)
    (o1 o2 o3 o5 : Except String String) (msg : String)
    (hf : s.connectionFailures = 0) (hv : s.view = View.room)
    (ht : strTruthy s.token = true) (hr : s.roomId.isEmpty = false) :
    (wsOnClose s o1).refreshCalled = false ∧
    (wsOnClose (afterCloses s [o1]) o2).refreshCalled = false ∧
    (wsOnClose (afterCloses s [o1, o2]) o3).refreshCalled = false ∧
    (wsOnClose (afterCloses s [o1, o2, o3]) (Except.error msg)).refreshCalled = true ∧
    (wsOnClose (afterCloses s [o1, o2, o3]) (Except.error msg)).state.view =
      View.landing ∧
    (strIncludes msg "room_not_found" = true →
      (wsOnClose (afterCloses s [o1, o2, o3]) (Except.error msg)).state.activeRoomId =
        none) ∧
    (wsOnClose (afterCloses s [o1, o2, o3, Except.error msg]) o5).refreshCalled =
      false := by
  have e1 := wsOnClose_noCall_low s o1 (by omega)
  have a1 : afterCloses s [o1] =
      { s with
        wsState := WsState.disconnected
        wsOpen := false
        connectionFailures := s.connectionFailures + 1 } := by
    show (wsOnClose s o1).state = _
    rw [e1]
  have e2 := wsOnClose_noCall_low (afterCloses s [o1]) o2
    (by rw [a1]; show s.connectionFailures + 1 + 1 ≤ 3; omega)
  have a2 : afterCloses s [o1, o2] =
      { s with
        wsState := WsState.disconnected
        wsOpen := false
        connectionFailures := s.connectionFailures + 1 + 1 } := by
    show (wsOnClose (afterCloses s [o1]) o2).state = _
    rw [e2, a1]
  have e3 := wsOnClose_noCall_low (afterCloses s [o1, o2]) o3
    (by rw [a2]; show s.connectionFailures + 1 + 1 + 1 ≤ 3; omega)
  have a3 : afterCloses s [o1, o2, o3] =
      { s with
        wsState := WsState.disconnected
        wsOpen := false
        connectionFailures := s.connectionFailures + 1 + 1 + 1 } := by
    show (wsOnClose (afterCloses s [o1, o2]) o3).state = _
    rw [e3, a2]
  have e4 := wsOnClose_call_error (afterCloses s [o1, o2, o3]) msg
    (by rw [a3]; show 3 < s.connectionFailures + 1 + 1 + 1 + 1; omega)
    (by rw [a3]; exact hv) (by rw [a3]; exact ht) (by rw [a3]; exact hr)
  refine ⟨by rw [e1], by rw [e2], by rw [e3], by rw [e4], ?_, ?_, ?_⟩
  · rw [e4]
    show (resetSession _).view = View.landing
    rfl
  · intro hrnf
    rw [e4, if_pos hrnf]
    show (resetSession _).activeRoomId = none
    rfl
  · have a4 : afterCloses s [o1, o2, o3, Except.error msg] =
        (wsOnClose (afterCloses s [o1, o2, o3]) (Except.error msg)).state := rfl
    rw [a4, e4]
    rw [wsOnClose_noCall_view _ o5 ?_]
    show (resetSession _).view ≠ View.room
    show (View.landing : View) ≠ View.room
    decide

/-- Witness for c5_close_threshold_refresh at the concrete in-room state
with a rejection naming room_not_found on the fourth closure. -/
theorem c5_close_threshold_refresh_witness :
    (wsOnClose demoState (Except.error "net")).refreshCalled = false ∧
    (wsOnClose (afterCloses demoState [Except.error "net"])
      (Except.error "net")).refreshCalled = false ∧
    (wsOnClose (afterCloses demoState [Except.error "net", Except.error "net"])
      (Except.error "net")).refreshCalled = false ∧
    (wsOnClose (afterCloses demoState
        [Except.error "net", Except.error "net", Except.error "net"])
      (Except.error "room_not_found")).refreshCalled = true ∧
    (wsOnClose (afterCloses demoState
        [Except.error "net", Except.error "net", Except.error "net"])
      (Except.error "room_not_found")).state.view = View.landing ∧
    (strIncludes "room_not_found" "room_not_found" = true →
      (wsOnClose (afterCloses demoState
          [Except.error "net", Except.error "net", Except.error "net"])
        (Except.error "room_not_found")).state.activeRoomId = none) ∧
    (wsOnClose (afterCloses demoState
        [Except.error "net", Except.error "net", Except.error "net",
         Except.error "room_not_found"]) (Except.error "net")).refreshCalled = false := by
  have h := c5_close_threshold_refresh demoState (Except.error "net") (Except.error "net")
    (Except.error "net") (Except.error "net") "room_not_found"
    (by decide) (by decide) (by decide) (by decide)
  exact ⟨h.1, h.2.1, h.2.2.1, h.2.2.2.1, h.2.2.2.2.1, h.2.2.2.2.2.1, h.2.2.2.2.2.2⟩

/-! ## C6 and C7: token refresh necessity and refresh outcome policy -/

/-- With a truthy token and room id, a token not judged due is returned
unchanged with no refresh call. -/
lemma refresh_skip (s : ClientState) (tok roomIdArg : String) (now : Int)
    (outcome : Except String String)
    (htok : tok.isEmpty = false) (hroom : roomIdArg.isEmpty = false)
    (hdue : shouldRefreshTok tok now = false) :
    refreshTokenIfNeeded s (some tok) roomIdArg now outcome = ⟨s, some tok, false⟩ := by
  simp [refreshTokenIfNeeded, strTruthy, htok, hroom, hdue]

/-- With a truthy token and room id and a token judged due, the refresh
call is made: on resolution with an unchanged token the state is untouched,
on a changed token it is stored, and on rejection null is produced with the
cached room pointer cleared exactly on a room_not_found message. -/
lemma refresh_do (s : ClientState) (tok roomIdArg : String) (now : Int)
    (htok : tok.isEmpty = false) (hroom : roomIdArg.isEmpty = false)
    (hdue : shouldRefreshTok tok now = true) :
    (∀ nt, refreshTokenIfNeeded s (some tok) roomIdArg now (Except.ok nt) =
      if nt = tok then ⟨s, some nt, true⟩
      else ⟨persistAuth { s with token := some nt } roomIdArg (some nt) none none,
        some nt, true⟩) ∧
    (∀ msg, refreshTokenIfNeeded s (some tok) roomIdArg now (Except.error msg) =
      ⟨(if strIncludes msg "room_not_found" = true then clearActiveRoomId s else s),
        none, true⟩) := by
  constructor
  · intro nt
    by_cases hnt : nt = tok <;>
      simp [refreshTokenIfNeeded, strTruthy, htok, hroom, hdue, hnt]
  · intro msg
    by_cases hrnf : strIncludes msg "room_not_found" = true <;>
      simp [refreshTokenIfNeeded, strTruthy, htok, hroom, hdue, hrnf]

/-- C6: for a token with decodable expiry e and threshold 3600 seconds,
refreshTokenIfNeeded judges the token due and attempts the refresh when
e = now + 3600 - 1, returns it untouched with no call when
e = now + 3600 + 1, and in general attempts the refresh exactly when
e - now < 3600. -/
theorem c6_refresh_threshold_boundary (s : ClientState) (tok roomIdArg : String)
    (now e : Int) (outcome : Except String String)
    (htok : tok.isEmpty = false) (hroom : roomIdArg.isEmpty = false)
    (hexp : getJwtExpSecs tok = some e) :
    (e = now + REFRESH_THRESHOLD_SECS - 1 →
      (refreshTokenIfNeeded s (some tok) roomIdArg now outcome).called = true) ∧
    (e = now + REFRESH_THRESHOLD_SECS + 1 →
      (refreshTokenIfNeeded s (some tok) roomIdArg now outcome).called = false ∧
      (refreshTokenIfNeeded s (some tok) roomIdArg now outcome).returned = some tok) ∧
    ((refreshTokenIfNeeded s (some tok) roomIdArg now outcome).called = true ↔
      e - now < REFRESH_THRESHOLD_SECS) := by
  have hdueform : shouldRefreshTok tok now = decide (e - now < REFRESH_THRESHOLD_SECS) := by
    unfold shouldRefreshTok
    rw [hexp]
  by_cases hlt : e - now < REFRESH_THRESHOLD_SECS
  · have hdue : shouldRefreshTok tok now = true := by simp [hdueform, hlt]
    have hcalled : (refreshTokenIfNeeded s (some tok) roomIdArg now outcome).called = true := by
      cases outcome with
      | ok nt =>
        rcases (refresh_do s tok roomIdArg now htok hroom hdue).1 nt with h
        rw [h]
        by_cases hnt : nt = tok <;> simp [hnt]
      | error msg => rw [(refresh_do s tok roomIdArg now htok hroom hdue).2 msg]
    refine ⟨fun _ => hcalled, fun heq => absurd hlt (by rw [heq]; omega), ?_⟩
    simp [hcalled, hlt]
  · have hdue : shouldRefreshTok tok now = false := by simp [hdueform, hlt]
    have hskip := refresh_skip s tok roomIdArg now outcome htok hroom hdue
    refine ⟨fun heq => absurd (by rw [heq]; omega : e - now < REFRESH_THRESHOLD_SECS) hlt,
      fun _ => by rw [hskip]; exact ⟨rfl, rfl⟩, ?_⟩
    rw [hskip]
    simp [hlt]

/-- Witness for c6_refresh_threshold_boundary at now = 0 with tokens whose
payloads decode to exp 3599 and exp 3601. -/
theorem c6_refresh_threshold_boundary_witness :
    (refreshTokenIfNeeded demoState (some "h.eyJleHAiOjM1OTl9.sig") "r1" 0
      (Except.ok "t2")).called = true ∧
    (refreshTokenIfNeeded demoState (some "h.eyJleHAiOjM2MDF9.sig") "r1" 0
      (Except.ok "t2")).called = false ∧
    (refreshTokenIfNeeded demoState (some "h.eyJleHAiOjM2MDF9.sig") "r1" 0
      (Except.ok "t2")).returned = some "h.eyJleHAiOjM2MDF9.sig" := by
  have h1 := c6_refresh_threshold_boundary demoState "h.eyJleHAiOjM1OTl9.sig" "r1" 0 3599
    (Except.ok "t2") (by decide) (by decide) (by decide)
  have h2 := c6_refresh_threshold_boundary demoState "h.eyJleHAiOjM2MDF9.sig" "r1" 0 3601
    (Except.ok "t2") (by decide) (by decide) (by decide)
  exact ⟨h1.1 (by decide), (h2.2.1 (by decide)).1, (h2.2.1 (by decide)).2⟩

/-- C7: when refreshTokenIfNeeded performs a refresh (truthy token and room
id, token judged due): a resolved call — through roomsApi.refreshToken,
whose empty-token fallback keeps the sent token — returns the resulting
token, and both the in-memory and the stored token equal it afterwards
(given they held the current token before); every rejected call returns
null, never the stale token; and the cached active-room pointer is cleared
exactly when the rejection message includes room_not_found. -/
theorem c7_refresh_failure_policy (s : ClientState) (tok roomIdArg : String) (now : Int)
    (htok : tok.isEmpty = false) (hroom : roomIdArg.isEmpty = false)
    (hdue : shouldRefreshTok tok now = true) :
    (∀ respTok,
      (refreshTokenIfNeeded s (some tok) roomIdArg now
        (roomsApiRefreshToken tok (Except.ok respTok))).returned =
        some (if respTok.isEmpty then tok else respTok)) ∧
    (∀ respTok, s.storedToken = some tok →
      (refreshTokenIfNeeded s (some tok) roomIdArg now
        (roomsApiRefreshToken tok (Except.ok respTok))).state.storedToken =
        some (if respTok.isEmpty then tok else respTok)) ∧
    (∀ respTok, s.token = some tok →
      (refreshTokenIfNeeded s (some tok) roomIdArg now
        (roomsApiRefreshToken tok (Except.ok respTok))).state.token =
        some (if respTok.isEmpty then tok else respTok)) ∧
    (∀ msg, (refreshTokenIfNeeded s (some tok) roomIdArg now
      (Except.error msg)).returned = none) ∧
    (∀ msg, strIncludes msg "room_not_found" = true →
      (refreshTokenIfNeeded s (some tok) roomIdArg now
        (Except.error msg)).state.activeRoomId = none) ∧
    (∀ msg, strIncludes msg "room_not_found" = false →
      (refreshTokenIfNeeded s (some tok) roomIdArg now
        (Except.error msg)).state.activeRoomId = s.activeRoomId) := by
  have hok := (refresh_do s tok roomIdArg now htok hroom hdue).1
  have herr := (refresh_do s tok roomIdArg now htok hroom hdue).2
  have hmap : ∀ respTok, roomsApiRefreshToken tok (Except.ok respTok) =
      Except.ok (if respTok.isEmpty then tok else respTok) := fun respTok => rfl
  refine ⟨?_, ?_, ?_, ?_, ?_, ?_⟩
  · intro respTok
    rw [hmap, hok]
    by_cases hnt : (if respTok.isEmpty then tok else respTok) = tok <;> simp [hnt]
  · intro respTok hst
    rw [hmap, hok]
    by_cases hnt : (if respTok.isEmpty then tok else respTok) = tok
    · simp [hnt, hst]
    · have hne : ((if respTok.isEmpty then tok else respTok) : String).isEmpty = false := by
        cases hre : respTok.isEmpty with
        | true => simp [htok]
        | false => simp [hre]
      simp [hnt, persistAuth, strTruthy, hroom, hne]
  · intro respTok htk
    rw [hmap, hok]
    by_cases hnt : (if respTok.isEmpty then tok else respTok) = tok
    · simp [hnt, htk]
    · simp only [hnt, if_false, reduceIte, persistAuth, strTruthy, hroom]
      by_cases hq : ((if respTok.isEmpty = true then tok else respTok) : String).isEmpty = true <;>
        simp [hq]
  · intro msg
    rw [herr]
  · intro msg hrnf
    rw [herr, if_pos hrnf]
    rfl
  · intro msg hrnf
    rw [herr, if_neg (by simp [hrnf])]

/-- Witness for c7_refresh_failure_policy at the concrete in-room state and
its stored token, due at now = 4000, with a resolved refresh to newtok and
a rejected refresh naming room_not_found. -/
theorem c7_refresh_failure_policy_witness :
    (refreshTokenIfNeeded demoState (some "h.eyJleHAiOjcyMDB9.sig") "r1" 4000
      (roomsApiRefreshToken "h.eyJleHAiOjcyMDB9.sig"
        (Except.ok "newtok"))).returned = some "newtok" ∧
    (refreshTokenIfNeeded demoState (some "h.eyJleHAiOjcyMDB9.sig") "r1" 4000
      (roomsApiRefreshToken "h.eyJleHAiOjcyMDB9.sig"
        (Except.ok "newtok"))).state.storedToken = some "newtok" ∧
    (refreshTokenIfNeeded demoState (some "h.eyJleHAiOjcyMDB9.sig") "r1" 4000
      (Except.error "room_not_found")).returned = none ∧
    (refreshTokenIfNeeded demoState (some "h.eyJleHAiOjcyMDB9.sig") "r1" 4000
      (Except.error "room_not_found")).state.activeRoomId = none := by
  have h := c7_refresh_failure_policy demoState "h.eyJleHAiOjcyMDB9.sig" "r1" 4000
    (by decide) (by decide) (by decide)
  refine ⟨?_, ?_, h.2.2.2.1 "room_not_found", h.2.2.2.2.1 "room_not_found" (by decide)⟩
  · have := h.1 "newtok"
    simpa using this
  · have := h.2.1 "newtok" (by decide)
    simpa using this

/-! ## C8: local refusal of create and join during the 429 cooldown -/

/-- A create or join attempt with its invocation time and network
outcome. -/
inductive AuthAttempt where
  | create (now : Int) (outcome : Except ApiFailure CreateRoomResponse)
  | join (now : Int) (outcome : Except ApiFailure JoinRoomResponse)

/-- Invocation time of an attempt. -/
def attemptTime : AuthAttempt → Int
  | AuthAttempt.create now _ => now
  | AuthAttempt.join now _ => now

/-- Run one attempt. -/
def runAttempt (s : ClientState) : AuthAttempt → AttemptStep
  | AuthAttempt.create now o => createRoom s now o
  | AuthAttempt.join now o => joinRoom s now o

/-- Run a list of attempts in order, counting the network requests
issued. -/
def runAttempts (s : ClientState) : List AuthAttempt → ClientState × Nat
  | [] => (s, 0)
  | a :: rest =>
    let st := runAttempt s a
    let r := runAttempts st.state rest
    (r.1, (if st.requested then 1 else 0) + r.2)

/-- An attempt made while the cooldown deadline is armed (nonzero) and not
yet reached is refused locally: no request, state unchanged. -/
lemma attempt_refused (s : ClientState) (a : AuthAttempt) (d : Int)
    (hd : s.retryDeadline = some d) (hdnz : d ≠ 0) (hlt : attemptTime a < d) :
    runAttempt s a = ⟨s, false⟩ := by
  cases a with
  | create now o =>
    simp only [attemptTime] at hlt
    have hact : retryDeadlineActive s now = true := by
      simp [retryDeadlineActive, hd, hdnz, hlt]
    show createRoom s now o = _
    unfold createRoom
    by_cases hp : s.isAuthPending <;> simp [hp, hact]
  | join now o =>
    simp only [attemptTime] at hlt
    have hact : retryDeadlineActive s now = true := by
      simp [retryDeadlineActive, hd, hdnz, hlt]
    show joinRoom s now o = _
    unfold joinRoom
    by_cases hp : s.isAuthPending <;> simp [hp, hact]

/-- A whole list of attempts before the deadline is refused: zero
requests, state unchanged. -/
lemma attempts_refused (attempts : List AuthAttempt) (s : ClientState) (d : Int)
    (hd : s.retryDeadline = some d) (hdnz : d ≠ 0)
    (hall : ∀ a ∈ attempts, attemptTime a < d) :
    runAttempts s attempts = (s, 0) := by
  induction attempts with
  | nil => rfl
  | cons a rest ih =>
    show runAttempts s (a :: rest) = _
    unfold runAttempts
    rw [attempt_refused s a d hd hdnz (hall a (List.mem_cons_self _ _))]
    dsimp only
    rw [ih (fun x hx => hall x (List.mem_cons_of_mem _ hx))]
    simp

/-- C8: a create or join request failing with HTTP 429 and Retry-After n
(n positive) arms the cooldown deadline at now + n * 1000 milliseconds, and
every subsequent create or join attempt invoked before that deadline — no
matter how many — is refused locally: no network request is issued and the
state does not change. -/
theorem c8_cooldown_refusal (s : ClientState) (t0 n : Int) (err : ApiFailure)
    (attempts : List AuthAttempt)
    (hs : err.status = 429) (hra : err.retryAfter = some n) (hn : 0 < n)
    (ht0 : 0 ≤ t0)
    (hp : s.isAuthPending = false) (hda : retryDeadlineActive s t0 = false)
    (hall : ∀ a ∈ attempts, attemptTime a < t0 + n * 1000) :
    (createRoom s t0 (Except.error err)).requested = true ∧
    (createRoom s t0 (Except.error err)).state.retryDeadline = some (t0 + n * 1000) ∧
    runAttempts (createRoom s t0 (Except.error err)).state attempts =
      ((createRoom s t0 (Except.error err)).state, 0) ∧
    (joinRoom s t0 (Except.error err)).requested = true ∧
    (joinRoom s t0 (Except.error err)).state.retryDeadline = some (t0 + n * 1000) ∧
    runAttempts (joinRoom s t0 (Except.error err)).state attempts =
      ((joinRoom s t0 (Except.error err)).state, 0) := by
  have hdnz : t0 + n * 1000 ≠ 0 := by positivity
  have hauth : authFailure { s with error := none } t0 err =
      { s with
        error := some ("Too many requests. Wait for " ++ toString n ++ "s")
        retryDeadline := some (t0 + n * 1000) } := by
    unfold authFailure
    simp only [hra]
    rw [if_pos ⟨hs, by omega⟩]
  have hcr : createRoom s t0 (Except.error err) =
      ⟨authFailure { s with error := none } t0 err, true⟩ := by
    unfold createRoom
    simp [hp, hda]
  have hjr : joinRoom s t0 (Except.error err) =
      ⟨authFailure { s with error := none } t0 err, true⟩ := by
    unfold joinRoom
    simp [hp, hda]
  refine ⟨by rw [hcr], by rw [hcr, hauth], ?_, by rw [hjr], by rw [hjr, hauth], ?_⟩
  · rw [hcr, hauth]
    exact attempts_refused attempts _ _ rfl hdnz hall
  · rw [hjr, hauth]
    exact attempts_refused attempts _ _ rfl hdnz hall

/-- Witness for c8_cooldown_refusal: a 429 failure at time 100 with
Retry-After 30 built through apiRequestFailure, followed by a create and a
join attempt before the 30100 deadline, neither of which issues a
request. -/
theorem c8_cooldown_refusal_witness :
    (createRoom landingState 100
      (Except.error (apiRequestFailure 429 "too_many_requests" (some "30")))).requested =
        true ∧
    (createRoom landingState 100
      (Except.error (apiRequestFailure 429 "too_many_requests"
        (some "30")))).state.retryDeadline = some 30100 ∧
    runAttempts (createRoom landingState 100
        (Except.error (apiRequestFailure 429 "too_many_requests" (some "30")))).state
      [AuthAttempt.create 500 (Except.ok ⟨"r9", "tok9", 5000⟩),
       AuthAttempt.join 29000 (Except.error (apiRequestFailure 500 "boom" none))] =
      ((createRoom landingState 100
        (Except.error (apiRequestFailure 429 "too_many_requests" (some "30")))).state,
        0) := by
  have h := c8_cooldown_refusal landingState 100 30
    (apiRequestFailure 429 "too_many_requests" (some "30"))
    [AuthAttempt.create 500 (Except.ok ⟨"r9", "tok9", 5000⟩),
     AuthAttempt.join 29000 (Except.error (apiRequestFailure 500 "boom" none))]
    (by decide) (by decide) (by decide) (by decide) (by decide) (by decide)
    (by decide)
  exact ⟨h.1, h.2.1, h.2.2.1⟩

/-! ## C9: malformed and unknown messages are swallowed -/

/-- A message whose type tag is unknown dispatches to the no-op default. -/
lemma dispatchTag_unknown (s : ClientState) (j : Json)
    (htag : ∀ tag, typeTagOf j = some tag → tag ∉ serverMessageTags) :
    dispatchTag s j = s := by
  unfold dispatchTag
  cases ht : typeTagOf j with
  | none => rfl
  | some t =>
    have hmem := htag t ht
    simp [serverMessageTags] at hmem
    obtain ⟨h1, h2, h3, h4, h5, h6, h7, h8⟩ := hmem
    simp [h1, h2, h3, h4, h5, h6, h7, h8]

/-- C9: a websocket message whose payload is not valid JSON, or whose type
tag is not one of the eight server-to-client tags, leaves the whole client
state — session, round and connection state included — unchanged: the
handler swallows it. -/
theorem c9_malformed_swallowed (s : ClientState) (raw : String) (j : Json) :
    ((parseJson raw).isNone = true → onMessage s raw = s) ∧
    (parseJson raw = some j →
      (∀ tag, typeTagOf j = some tag → tag ∉ serverMessageTags) →
      onMessage s raw = s) := by
  constructor
  · intro h
    unfold onMessage
    cases hp : parseJson raw with
    | none => rfl
    | some v =>
      rw [hp] at h
      simp at h
  · intro hp htag
    unfold onMessage
    rw [hp]
    cases j with
    | null => rfl
    | bool b => exact dispatchTag_unknown s _ htag
    | num n => exact dispatchTag_unknown s _ htag
    | str str2 => exact dispatchTag_unknown s _ htag
    | arr elems => exact dispatchTag_unknown s _ htag
    | obj fields => exact dispatchTag_unknown s _ htag

/-- Witness for c9_malformed_swallowed at the concrete in-room state: a
non-JSON payload and a well-formed payload with the unknown tag mystery
both leave the state unchanged. -/
theorem c9_malformed_swallowed_witness :
    onMessage demoState "\x7boops" = demoState ∧
    onMessage demoState "\x7b\"type\":\"mystery\"\x7d" = demoState := by
  constructor
  · exact (c9_malformed_swallowed demoState "\x7boops" Json.null).1 (by decide)
  · refine (c9_malformed_swallowed demoState "\x7b\"type\":\"mystery\"\x7d"
      (Json.obj [("type", Json.str "mystery")])).2 rfl ?_
    intro tag h
    simp [typeTagOf, lookupField] at h
    subst h
    decide

/-! ## C10: undecodable expiries force a refresh attempt -/

/-- C10 describes the undecodable class as "not three dot-separated
segments"; that is not what the decoder tests: it consults only the second
dot-separated segment. This token has two segments, not three, yet its
expiry decodes to 1. -/
theorem c10_counterexample :
    (splitOnChar '.' ("x.eyJleHAiOjF9".data)).length = 2 ∧
    getJwtExpSecs "x.eyJleHAiOjF9" = some 1 := by
  decide

/-- C10 (amended): getJwtExpSecs consults only the second dot-separated
segment of the token: it returns null when that segment is absent or
empty, is not base64url-decodable, does not decode to JSON, or carries a
missing or zero exp — each class shown at a concrete token — and it is
total, returning null rather than throwing; whenever it returns null,
refreshTokenIfNeeded judges the token due and attempts the refresh call. -/
theorem c10_undecodable_exp_refreshes (s : ClientState) (tok roomIdArg : String)
    (now : Int) (outcome : Except String String)
    (htok : tok.isEmpty = false) (hroom : roomIdArg.isEmpty = false)
    (hnone : getJwtExpSecs tok = none) :
    shouldRefreshTok tok now = true ∧
    (refreshTokenIfNeeded s (some tok) roomIdArg now outcome).called = true ∧
    getJwtExpSecs "noDotsHere" = none ∧
    getJwtExpSecs "h..s" = none ∧
    getJwtExpSecs "h.!!!.s" = none ∧
    getJwtExpSecs "h.aGVsbG8.s" = none ∧
    getJwtExpSecs "h.eyJuYmYiOjV9.s" = none ∧
    getJwtExpSecs "h.eyJleHAiOjB9.s" = none := by
  have hdue : shouldRefreshTok tok now = true := by
    unfold shouldRefreshTok
    rw [hnone]
  refine ⟨hdue, ?_, by decide, by decide, by decide, by decide, by decide, by decide⟩
  cases outcome with
  | ok nt =>
    rw [(refresh_do s tok roomIdArg now htok hroom hdue).1 nt]
    by_cases hnt : nt = tok <;> simp [hnt]
  | error msg =>
    rw [(refresh_do s tok roomIdArg now htok hroom hdue).2 msg]

/-- Witness for c10_undecodable_exp_refreshes at a dotless token. -/
theorem c10_undecodable_exp_refreshes_witness :
    shouldRefreshTok "notAJwt" 0 = true ∧
    (refreshTokenIfNeeded demoState (some "notAJwt") "r1" 0
      (Except.error "boom")).called = true :=
  ⟨(c10_undecodable_exp_refreshes demoState "notAJwt" "r1" 0 (Except.error "boom")
      (by decide) (by decide) (by decide)).1,
   (c10_undecodable_exp_refreshes demoState "notAJwt" "r1" 0 (Except.error "boom")
      (by decide) (by decide) (by decide)).2.1⟩

end BuzzerApp
